import Mathlib

set_option maxRecDepth 100000

/-!
Verification development for the weekly-summary ETL script
(`etl_weekly_summary_to_mysql.py`).  The normalization pipeline is shallowly
embedded: the wide table is an explicit structure, numeric cell values are
rationals (the script only ever manipulates exactly representable decimal
amounts), missing values are `Option`, and each pandas / regex operation of
the source is translated into an executable Lean function.
-/

/-! ## Character-level utilities

Python's `\s` (for ASCII text, the only text the pipeline sees) is the set
space, tab, newline, carriage return, vertical tab, form feed; `\d` is an
ASCII decimal digit. -/

/-- Whitespace as matched by Python regex `\s` on ASCII input. -/
def pySpace (c : Char) : Bool :=
  c == ' ' || c == '\t' || c == '\n' || c == '\r' || c == '\x0b' || c == '\x0c'

/-- Decimal digit as matched by Python regex `\d` on ASCII input. -/
def isDig (c : Char) : Bool :=
  decide (48 ≤ c.toNat) && decide (c.toNat ≤ 57)

/-- Numeric value of a digit character. -/
def digitVal (c : Char) : Nat := c.toNat - 48

/-- Drop a maximal run of whitespace, as the greedy regex `\s*` does. -/
def dropSpaces (cs : List Char) : List Char := cs.dropWhile pySpace

/-- Python `str.lower()` on ASCII text (structural-recursion version of
string lowering, so that proofs can evaluate it). -/
def lowerStr (s : String) : String := String.mk (s.toList.map Char.toLower)

/-- String prefix test (structural-recursion version of
`String.startsWith`, so that proofs can evaluate it). -/
def beginsWith (s pre : String) : Bool := List.isPrefixOf pre.toList s.toList

/-! ## Label Parser

Embedding of `parse_week_year` (source lines 85–91): Python regex
`Week\s*(\d{1,2})\s*,\s*(\d{4})` with `re.IGNORECASE`, applied with
`pat.search`, i.e. tried at every position left to right.  On a match the
two groups are converted with `int`; on no match the source returns
`(nan, nan)`, embedded as `none`. -/

/-- Match `(\d{4})` at the head of the input: exactly four digits are
consumed (further digits are simply left unread, as the regex does). -/
def matchYear : List Char → Option Nat
  | a :: b :: c :: d :: _ =>
    if isDig a && isDig b && isDig c && isDig d then
      some (digitVal a * 1000 + digitVal b * 100 + digitVal c * 10 + digitVal d)
    else none
  | _ => none

/-- Match `\s*,\s*(\d{4})` at the head of the input. -/
def matchComma (cs : List Char) : Option Nat :=
  match dropSpaces cs with
  | ',' :: rest => matchYear (dropSpaces rest)
  | _ => none

/-- Match `(\d{1,2})\s*,\s*(\d{4})` at the head of the input, with the
greedy-then-backtrack behaviour of `\d{1,2}`: two digits are preferred, and
one digit is retried when the two-digit continuation fails. -/
def matchDigits : List Char → Option (Nat × Nat)
  | d1 :: d2 :: rest2 =>
    if isDig d1 then
      if isDig d2 then
        match matchComma rest2 with
        | some y => some (digitVal d1 * 10 + digitVal d2, y)
        | none => (matchComma (d2 :: rest2)).map (fun y => (digitVal d1, y))
      else (matchComma (d2 :: rest2)).map (fun y => (digitVal d1, y))
    else none
  | [d1] =>
    if isDig d1 then (matchComma []).map (fun y => (digitVal d1, y)) else none
  | [] => none

/-- Match the literal `Week` case-insensitively at the head of the input. -/
def matchWeekTok : List Char → Option (List Char)
  | c1 :: c2 :: c3 :: c4 :: rest =>
    if c1.toLower = 'w' ∧ c2.toLower = 'e' ∧ c3.toLower = 'e' ∧ c4.toLower = 'k' then
      some rest
    else none
  | _ => none

/-- Try the whole pattern anchored at the head of the input. -/
def matchAt (cs : List Char) : Option (Nat × Nat) :=
  match matchWeekTok cs with
  | some rest => matchDigits (dropSpaces rest)
  | none => none

/-- `re.search`: try the pattern at every position, left to right. -/
def searchWY : List Char → Option (Nat × Nat)
  | [] => none
  | c :: cs =>
    match matchAt (c :: cs) with
    | some r => some r
    | none => searchWY cs

/-- `parse_week_year` (source lines 87–91): `some (week, year)` on a regex
match, `none` (the source's `(nan, nan)`) otherwise. -/
def parse_week_year (s : String) : Option (Nat × Nat) := searchWY s.toList

/-! ## Value Normalizer

Embedding of the value-parsing chain (source lines 99–106):
`.str.replace(r"[\$,]", "")`, then `.str.replace(r"\(([^)]+)\)", r"-\1")`,
then `.str.strip()`, then `pd.to_numeric(..., errors="coerce")`.  A missing
cell has already become the text `nan` via `.astype(str)` and fails the
numeric parse. -/

/-- Remove every `$` and `,` character (regex `[\$,]` replaced by the empty
string). -/
def stripDollarComma (cs : List Char) : List Char :=
  cs.filter (fun c => !(c == '$' || c == ','))

/-- One left-to-right pass of `re.sub(r"\(([^)]+)\)", r"-\1", s)`: each
non-overlapping parenthesized group with non-empty `)`-free content is
rewritten to `-` followed by the content; scanning resumes after the
replaced text.  The fuel argument is the length of the list, which bounds
the number of steps. -/
def parenSubAux : Nat → List Char → List Char
  | _, [] => []
  | 0, l => l
  | fuel + 1, c :: rest =>
    if c == '(' then
      match rest.span (fun x => !(x == ')')) with
      | (content, ')' :: rest') =>
        if content.isEmpty then c :: parenSubAux fuel rest
        else '-' :: (content ++ parenSubAux fuel rest')
      | _ => c :: parenSubAux fuel rest
    else c :: parenSubAux fuel rest

/-- Accounting-negative rewrite `(X)` ↦ `-X` over the whole string. -/
def parenSub (l : List Char) : List Char := parenSubAux l.length l

/-- Python `str.strip()`: remove leading and trailing whitespace. -/
def pstrip (cs : List Char) : List Char :=
  ((cs.dropWhile pySpace).reverse.dropWhile pySpace).reverse

/-- Digit list to natural number, most significant first. -/
def natOfDigits (cs : List Char) : Nat :=
  cs.foldl (fun a c => a * 10 + digitVal c) 0

/-- Fractional part value of a digit list. -/
def fracVal (cs : List Char) : ℚ :=
  (natOfDigits cs : ℚ) / ((10 : ℚ) ^ cs.length)

/-- Unsigned decimal-number parse: digits, optionally a decimal point with
further digits, at least one digit in total.  This is the fragment of
`pd.to_numeric`'s grammar the pipeline's currency data can reach; anything
else fails, and with `errors="coerce"` failure is `NaN`, embedded `none`. -/
def parseUnsigned (cs : List Char) : Option ℚ :=
  let intPart := cs.takeWhile isDig
  let rest := cs.dropWhile isDig
  match rest with
  | [] => if intPart.isEmpty then none else some (natOfDigits intPart : ℚ)
  | '.' :: frac =>
    if frac.all isDig && !(intPart.isEmpty && frac.isEmpty) then
      some ((natOfDigits intPart : ℚ) + fracVal frac)
    else none
  | _ => none

/-- Signed decimal-number parse (optional leading `-` or `+`). -/
def parseNumeric : List Char → Option ℚ
  | '-' :: rest => (parseUnsigned rest).map (fun q => -q)
  | '+' :: rest => parseUnsigned rest
  | cs => parseUnsigned cs

/-- The Value Normalizer (source lines 99–106): strip `$` and `,`, rewrite
accounting negatives, trim whitespace, then attempt the numeric parse;
`none` on failure, never an exception and never a default zero. -/
def parse_value (s : String) : Option ℚ :=
  parseNumeric (pstrip (parenSub (stripDollarComma s.toList)))

/-! ## Metric Decomposer

Embedding of source lines 110–114: `str.extract(r"^(CB|BG|DS|Total)")` and
`str.replace(r"^(CB|BG|DS|Total)\s*", "")`.  The regex alternation tries the
tags in written order and matches a plain string prefix (it is not
token-anchored). -/

/-- The channel tags, in the order of the regex alternation. -/
def channelTags : List String := ["CB", "BG", "DS", "Total"]

/-- `channel` column: first tag that is a string prefix of the label, as
`str.extract(r"^(CB|BG|DS|Total)", expand=False)` produces (`NaN`, i.e.
`none`, when no tag matches). -/
def extract_channel (s : String) : Option String :=
  channelTags.find? (fun c => beginsWith s c)

/-- `metric_name` column: `str.replace(r"^(CB|BG|DS|Total)\s*", "")` —
when a tag matches at the start, remove it together with the following
whitespace run; otherwise the label is unchanged. -/
def stripChannel (s : String) : String :=
  match channelTags.find? (fun c => beginsWith s c) with
  | none => s
  | some c => String.mk (dropSpaces (s.toList.drop c.length))

/-! ## Data model -/

/-- One canonical tidy observation, the row shape returned by
`tidy_weekly_summary` (source line 116): columns
`year, week, channel, metric_name, value, metric`. -/
structure TidyRecord where
  year : Nat
  week : Nat
  channel : Option String
  metric_name : String
  value : Option ℚ
  metric : String
deriving DecidableEq

/-- One row of an ingested wide table: the first-column metric label
(missing when the cell is `NaN`) and the period-column cells in header
order (a missing cell is `none`). -/
structure RawRow where
  metric : Option String
  cells : List (Option String)
deriving DecidableEq

/-- An ingested wide table: the first column is modelled by the `metric`
field of each row, `headers` are the remaining column headers in order. -/
structure RawTable where
  headers : List String
  rows : List RawRow
deriving DecidableEq

/-- Text the cell contributes after `.astype(str)`: a missing value prints
as `nan` (which then fails the numeric parse). -/
def cellText : Option String → String
  | some s => s
  | none => "nan"

/-! ## Wide-to-Long Melter -/

/-- Embedding of `tidy_weekly_summary` (source lines 70–116): drop rows with
a missing first-column label, drop `Unnamed` columns
(`str.contains(r"^Unnamed")`, i.e. the header starts with `Unnamed`), melt
column-major (all rows of the first period column, then the next), drop
triples whose header fails `parse_week_year`, normalize the cell value and
decompose the metric label. -/
def tidy_weekly_summary (t : RawTable) : List TidyRecord :=
  let rows := t.rows.filter (fun r => r.metric.isSome)
  (List.range t.headers.length).flatMap (fun j =>
    let lbl := t.headers.getD j ""
    if beginsWith lbl "Unnamed" then []
    else
      match parse_week_year lbl with
      | none => []
      | some (w, y) =>
        rows.map (fun row =>
          let met := row.metric.getD ""
          { year := y
            week := w
            channel := extract_channel met
            metric_name := stripChannel met
            value := parse_value (cellText (row.cells.getD j none))
            metric := met }))

/-! ## Scope Filter -/

/-- Source line 20: keep only weeks 1–31 of 2025. -/
def CUTOFF_2025_WEEK : Nat := 31

/-- The retention condition of the scope mask (source lines 177–180). -/
def scope_keep (year week : Nat) : Bool :=
  year == 2024 || (year == 2025 && week ≤ CUTOFF_2025_WEEK)

/-- The scope filter applied to the tidy set (source lines 177–180). -/
def scope_filter (l : List TidyRecord) : List TidyRecord :=
  l.filter (fun r => scope_keep r.year r.week)

/-- The normalization pipeline of `main`: melt, then apply the scope filter
(source lines 174–180). -/
def pipeline (t : RawTable) : List TidyRecord :=
  scope_filter (tidy_weekly_summary t)

/-! ## Aggregation Layer

In-process aggregations are the pandas computations of `main` (sum by year,
source lines 201–206) and of the plot helpers (sum by year and week, source
lines 121–125 and 145); the persisted-copy aggregations embed the SQL
queries of `main` (source lines 219–253) under MySQL semantics: the default
collation compares strings case-insensitively, `SUM`/`AVG` ignore `NULL`
and return `NULL` when no non-`NULL` value exists, and
`ORDER BY value DESC LIMIT 1` may return any row of maximal value (`NULL`
sorting last in descending order). -/

/-- Pandas metric filter `clean["metric_name"].str.lower() == q` (source
lines 120, 144, 202): the lowercased name is compared with `q`, which `main`
and the plot helpers always supply in lower case. -/
def fMetricPy (l : List TidyRecord) (q : String) : List TidyRecord :=
  l.filter (fun r => lowerStr r.metric_name == q)

/-- SQL metric filter `WHERE metric_name = 'q'` under MySQL's
case-insensitive default collation. -/
def fMetricSql (l : List TidyRecord) (q : String) : List TidyRecord :=
  l.filter (fun r => lowerStr r.metric_name == lowerStr q)

/-- Ascending order on years, as produced by `groupby("year")` (pandas
sorts group keys) and `GROUP BY year ORDER BY year`. -/
def yearKeys (m : List TidyRecord) : List Nat :=
  List.insertionSort (fun a b => a ≤ b) ((m.map (fun r => r.year)).dedup)

/-- The records of one year group. -/
def yearGroup (m : List TidyRecord) (y : Nat) : List TidyRecord :=
  m.filter (fun r => r.year == y)

/-- Lexicographic order on (year, week) keys. -/
def pairLe (a b : Nat × Nat) : Prop :=
  a.1 < b.1 ∨ (a.1 = b.1 ∧ a.2 ≤ b.2)

instance : DecidableRel pairLe := fun a b => by
  unfold pairLe; infer_instance

/-- Ascending (year, week) keys, as produced by `groupby(["year","week"])`
and `GROUP BY year, week ORDER BY year, week`. -/
def wkKeys (m : List TidyRecord) : List (Nat × Nat) :=
  List.insertionSort pairLe ((m.map (fun r => (r.year, r.week))).dedup)

/-- The records of one (year, week) group. -/
def wkGroup (m : List TidyRecord) (k : Nat × Nat) : List TidyRecord :=
  m.filter (fun r => r.year == k.1 && r.week == k.2)

/-- The defined values of a group. -/
def definedVals (g : List TidyRecord) : List ℚ :=
  g.filterMap (fun r => r.value)

/-- Pandas group sum: `NaN` values are skipped and an all-`NaN` group sums
to `0.0` (`groupby(...).sum()` with its default `min_count=0`). -/
def pySum (g : List TidyRecord) : ℚ := (definedVals g).sum

/-- SQL `SUM(value)`: `NULL` values are ignored and the sum over no
non-`NULL` value is `NULL`. -/
def sqlSUM (g : List TidyRecord) : Option ℚ :=
  if (definedVals g).isEmpty then none else some (definedVals g).sum

/-- SQL `AVG(value)`: mean of the non-`NULL` values, `NULL` when there is
none. -/
def sqlAVG (g : List TidyRecord) : Option ℚ :=
  if (definedVals g).isEmpty then none
  else some ((definedVals g).sum / ((definedVals g).length : ℚ))

/-- In-process sum-by-year (source lines 201–206): filter the metric name
case-insensitively, group by year, sum the defined values. -/
def py_sum_by_year (l : List TidyRecord) (q : String) : List (Nat × ℚ) :=
  (yearKeys (fMetricPy l q)).map (fun y => (y, pySum (yearGroup (fMetricPy l q) y)))

/-- The `total_revenue_per_year` / `total_net_income_per_year` query shape
(source lines 220–233), generalized over the metric name. -/
def sql_sum_by_year (l : List TidyRecord) (q : String) : List (Nat × Option ℚ) :=
  (yearKeys (fMetricSql l q)).map (fun y => (y, sqlSUM (yearGroup (fMetricSql l q) y)))

/-- In-process weekly series (source lines 121–125 and 145): group by
(year, week), sum, ascending (year, week) order. -/
def py_weekly_series (l : List TidyRecord) (q : String) : List ((Nat × Nat) × ℚ) :=
  (wkKeys (fMetricPy l q)).map (fun k => (k, pySum (wkGroup (fMetricPy l q) k)))

/-- The `weekly_revenue` query (source lines 247–253), generalized over the
metric name. -/
def sql_weekly_series (l : List TidyRecord) (q : String) : List ((Nat × Nat) × Option ℚ) :=
  (wkKeys (fMetricSql l q)).map (fun k => (k, sqlSUM (wkGroup (fMetricSql l q) k)))

/-- The `avg_weekly_revenue` query (source lines 241–246), generalized over
the metric name. -/
def sql_avg_by_year (l : List TidyRecord) (q : String) : List (Nat × Option ℚ) :=
  (yearKeys (fMetricSql l q)).map (fun y => (y, sqlAVG (yearGroup (fMetricSql l q) y)))

/-- Modelled from the spec: the in-process average-by-year of the
Aggregation Layer, which the script itself never computes in process —
"same grouping, arithmetic mean over defined values only"; a group without
a defined value has no arithmetic mean and yields no entry. -/
def spec_avg_by_year (l : List TidyRecord) (q : String) : List (Nat × ℚ) :=
  (yearKeys (fMetricSql l q)).filterMap (fun y =>
    if (definedVals (yearGroup (fMetricSql l q) y)).isEmpty then none
    else some (y, (definedVals (yearGroup (fMetricSql l q) y)).sum /
      ((definedVals (yearGroup (fMetricSql l q) y)).length : ℚ)))

/-- Order used by `ORDER BY value DESC` on nullable values: `NULL` sorts
below every number. -/
def optLe : Option ℚ → Option ℚ → Bool
  | none, _ => true
  | some _, none => false
  | some a, some b => decide (a ≤ b)

/-- The `most_profitable_week` query (source lines 234–240), generalized
over the metric name: `ORDER BY value DESC LIMIT 1` may return any matching
record whose value is greatest in the `optLe` order; which of several tied
rows is returned is not determined by the query. -/
def sql_most_profitable_ok (l : List TidyRecord) (q : String) (r : TidyRecord) : Prop :=
  r ∈ fMetricSql l q ∧ ∀ x ∈ fMetricSql l q, optLe x.value r.value = true

instance (l : List TidyRecord) (q : String) (r : TidyRecord) :
    Decidable (sql_most_profitable_ok l q r) := by
  unfold sql_most_profitable_ok; infer_instance

/-- Modelled from the spec: the in-process extremum of the Aggregation
Layer, which the script itself never computes in process — "single record
with maximal value; tie-break = earliest record by stored order": the
first stored record whose value is defined and not exceeded by any other
matching record. -/
def spec_extremum_max (l : List TidyRecord) (q : String) : Option TidyRecord :=
  (fMetricSql l q).find? (fun r =>
    r.value.isSome && (fMetricSql l q).all (fun x => optLe x.value r.value))

/-! ## Concrete example data -/

/-- The end-to-end example table of the spec: two metric rows under the
headers `Week 1, 2024` and `Week 2, 2024`. -/
def exTable : RawTable :=
  { headers := ["Week 1, 2024", "Week 2, 2024"]
    rows := [ { metric := some "CB Revenue", cells := [some "$100", some "$200"] }
            , { metric := some "Total Net Income", cells := [some "$50", some "(10)"] } ] }

/-- Every (year, week) group of the list contains at least one record with
a defined value.  Under this hypothesis pandas' all-`NaN`-group-sums-to-zero
convention and SQL's all-`NULL`-sums-to-`NULL` convention cannot diverge. -/
def groupsDefined (m : List TidyRecord) : Prop :=
  ∀ r ∈ m, ∃ x ∈ m, x.year = r.year ∧ x.week = r.week ∧ x.value.isSome = true

instance (m : List TidyRecord) : Decidable (groupsDefined m) := by
  unfold groupsDefined; infer_instance

/-- A record set whose only Revenue record has an undefined value: the
in-process sum is `0.0` while the SQL `SUM` is `NULL`. -/
def bad7 : List TidyRecord := [⟨2024, 1, none, "Revenue", none, "Revenue"⟩]

/-- Earlier of two tied Net Income records. -/
def r8early : TidyRecord := ⟨2024, 1, none, "Net Income", some 5, "Net Income"⟩

/-- Later of two tied Net Income records. -/
def r8late : TidyRecord := ⟨2024, 2, none, "Net Income", some 5, "Net Income"⟩

/-- A sample in-scope record for the scope-filter witness. -/
def exRec2025 : TidyRecord := ⟨2025, 31, none, "Revenue", some 1, "Revenue"⟩

/-- The unique maximal-Revenue record of the example pipeline output. -/
def exTop : TidyRecord := ⟨2024, 2, some "CB", "Revenue", some 200, "CB Revenue"⟩

/-! ## Helper lemmas -/

/-- A year key of a record set comes from some record of the set. -/
lemma mem_of_mem_yearKeys {m : List TidyRecord} {y : Nat} (h : y ∈ yearKeys m) :
    ∃ r ∈ m, r.year = y := by
  unfold yearKeys at h
  rw [(List.perm_insertionSort (fun a b => a ≤ b)
    ((m.map (fun r => r.year)).dedup)).mem_iff, List.mem_dedup, List.mem_map] at h
  obtain ⟨r, hr, hry⟩ := h
  exact ⟨r, hr, hry⟩

/-- A (year, week) key of a record set comes from some record of the set. -/
lemma mem_of_mem_wkKeys {m : List TidyRecord} {k : Nat × Nat} (h : k ∈ wkKeys m) :
    ∃ r ∈ m, (r.year, r.week) = k := by
  unfold wkKeys at h
  rw [(List.perm_insertionSort pairLe
    ((m.map (fun r => (r.year, r.week))).dedup)).mem_iff, List.mem_dedup, List.mem_map] at h
  obtain ⟨r, hr, hrk⟩ := h
  exact ⟨r, hr, hrk⟩

/-- Under `groupsDefined`, the year group of any year actually present in
the set has at least one defined value. -/
lemma definedVals_yearGroup_ne {m : List TidyRecord} {y : Nat}
    (H : groupsDefined m) (hy : ∃ r ∈ m, r.year = y) :
    (definedVals (yearGroup m y)).isEmpty = false := by
  obtain ⟨r, hr, hry⟩ := hy
  obtain ⟨x, hx, hxy, hxw, hxv⟩ := H r hr
  obtain ⟨v, hv⟩ := Option.isSome_iff_exists.mp hxv
  have hxg : x ∈ yearGroup m y := by
    rw [yearGroup, List.mem_filter]
    exact ⟨hx, by simp [hxy, hry]⟩
  have hmem : v ∈ definedVals (yearGroup m y) :=
    List.mem_filterMap.mpr ⟨x, hxg, hv⟩
  exact List.isEmpty_eq_false.mpr (List.ne_nil_of_mem hmem)

/-- Under `groupsDefined`, the (year, week) group of any key actually
present in the set has at least one defined value. -/
lemma definedVals_wkGroup_ne {m : List TidyRecord} {k : Nat × Nat}
    (H : groupsDefined m) (hk : ∃ r ∈ m, (r.year, r.week) = k) :
    (definedVals (wkGroup m k)).isEmpty = false := by
  obtain ⟨r, hr, hrk⟩ := hk
  obtain ⟨x, hx, hxy, hxw, hxv⟩ := H r hr
  obtain ⟨v, hv⟩ := Option.isSome_iff_exists.mp hxv
  have hxg : x ∈ wkGroup m k := by
    rw [wkGroup, List.mem_filter]
    refine ⟨hx, ?_⟩
    have h1 : r.year = k.1 := by rw [← hrk]
    have h2 : r.week = k.2 := by rw [← hrk]
    simp [hxy, hxw, h1, h2]
  have hmem : v ∈ definedVals (wkGroup m k) :=
    List.mem_filterMap.mpr ⟨x, hxg, hv⟩
  exact List.isEmpty_eq_false.mpr (List.ne_nil_of_mem hmem)

/-- A `filterMap` whose function succeeds on every element is a `map`. -/
lemma filterMap_eq_map_of_forall {α β : Type} (keys : List α) (f : α → Option β) (g : α → β)
    (h : ∀ y ∈ keys, f y = some (g y)) : keys.filterMap f = keys.map g := by
  induction keys with
  | nil => rfl
  | cons a as ih =>
    rw [List.filterMap_cons, h a (by simp), List.map_cons,
      ih (fun y hy => h y (List.mem_cons_of_mem a hy))]

/-- A digit character has value at most 9. -/
lemma digitVal_le_of_isDig {c : Char} (h : isDig c = true) : digitVal c ≤ 9 := by
  unfold isDig at h
  simp only [Bool.and_eq_true, decide_eq_true_eq] at h
  unfold digitVal
  omega

/-- A year matched from four digits is at most 9999. -/
lemma matchYear_le {cs : List Char} {y : Nat} (h : matchYear cs = some y) : y ≤ 9999 := by
  unfold matchYear at h
  split at h
  · split at h
    · next hd =>
      simp only [Bool.and_eq_true] at hd
      obtain ⟨⟨⟨ha, hb⟩, hc⟩, hd4⟩ := hd
      have := digitVal_le_of_isDig ha
      have := digitVal_le_of_isDig hb
      have := digitVal_le_of_isDig hc
      have := digitVal_le_of_isDig hd4
      cases h
      omega
    · exact absurd h (by simp)
  · exact absurd h (by simp)

/-- A year matched after the comma is at most 9999. -/
lemma matchComma_le {cs : List Char} {y : Nat} (h : matchComma cs = some y) : y ≤ 9999 := by
  unfold matchComma at h
  split at h
  · exact matchYear_le h
  · exact absurd h (by simp)

/-- A matched week is at most 99 and a matched year at most 9999. -/
lemma matchDigits_bounds {cs : List Char} {w y : Nat}
    (h : matchDigits cs = some (w, y)) : w ≤ 99 ∧ y ≤ 9999 := by
  unfold matchDigits at h
  split at h
  · next d1 d2 rest2 =>
    split at h
    · next h1 =>
      split at h
      · next h2 =>
        split at h
        · next y0 hy0 =>
          cases h
          have := digitVal_le_of_isDig h1
          have := digitVal_le_of_isDig h2
          exact ⟨by omega, matchComma_le hy0⟩
        · rw [Option.map_eq_some'] at h
          obtain ⟨y0, hy0, hmk⟩ := h
          cases hmk
          exact ⟨by have := digitVal_le_of_isDig h1; omega, matchComma_le hy0⟩
      · rw [Option.map_eq_some'] at h
        obtain ⟨y0, hy0, hmk⟩ := h
        cases hmk
        exact ⟨by have := digitVal_le_of_isDig h1; omega, matchComma_le hy0⟩
    · exact absurd h (by simp)
  · next d1 =>
    split at h
    · rw [Option.map_eq_some'] at h
      obtain ⟨y0, hy0, hmk⟩ := h
      cases hmk
      exact ⟨by have := digitVal_le_of_isDig (by assumption); omega, matchComma_le hy0⟩
    · exact absurd h (by simp)
  · exact absurd h (by simp)

/-- Bounds for a match anchored at one position. -/
lemma matchAt_bounds {cs : List Char} {w y : Nat}
    (h : matchAt cs = some (w, y)) : w ≤ 99 ∧ y ≤ 9999 := by
  unfold matchAt at h
  split at h
  · exact matchDigits_bounds h
  · exact absurd h (by simp)

/-- Bounds for the position-by-position search. -/
lemma searchWY_bounds : ∀ (cs : List Char) {w y : Nat},
    searchWY cs = some (w, y) → w ≤ 99 ∧ y ≤ 9999 := by
  intro cs
  induction cs with
  | nil => intro w y h; exact absurd h (by simp [searchWY])
  | cons c cs ih =>
    intro w y h
    unfold searchWY at h
    split at h
    · next r heq =>
      cases h
      exact matchAt_bounds heq
    · exact ih h

/-- At a position whose first character does not lower to `w`, the pattern
cannot match. -/
lemma matchAt_none_of_head {c : Char} (cs : List Char) (h : c.toLower ≠ 'w') :
    matchAt (c :: cs) = none := by
  rcases cs with _ | ⟨c2, _ | ⟨c3, _ | ⟨c4, rest⟩⟩⟩ <;>
    simp [matchAt, matchWeekTok, h]

/-- The search finds `Week 5, 2024` embedded after any leading text that
contains no `w`, whatever follows it. -/
lemma searchWY_through (pre post : List Char) (h : ∀ c ∈ pre, c.toLower ≠ 'w') :
    searchWY (pre ++ String.toList "Week 5, 2024" ++ post) = some (5, 2024) := by
  induction pre with
  | nil =>
    show searchWY (String.toList "Week 5, 2024" ++ post) = some (5, 2024)
    with_unfolding_all rfl
  | cons c pre ih =>
    show searchWY (c :: (pre ++ String.toList "Week 5, 2024" ++ post)) = some (5, 2024)
    rw [searchWY, matchAt_none_of_head _ (h c (by simp))]
    exact ih (fun c hc => h c (by simp [hc]))

/-- The pandas sum-by-year and the SQL sum-by-year agree (up to the `some`
wrapper) when every group has a defined value. -/
lemma sql_eq_py_sum {l : List TidyRecord} {q : String}
    (H : groupsDefined (fMetricSql l q)) :
    sql_sum_by_year l q = (py_sum_by_year l (lowerStr q)).map (fun p => (p.1, some p.2)) := by
  have hf : fMetricPy l (lowerStr q) = fMetricSql l q := rfl
  unfold sql_sum_by_year py_sum_by_year
  rw [hf, List.map_map]
  refine List.map_congr_left (fun y hy => ?_)
  have hne := definedVals_yearGroup_ne H (mem_of_mem_yearKeys hy)
  simp [sqlSUM, pySum, hne]

/-- The pandas weekly series and the SQL weekly series agree (up to the
`some` wrapper) when every group has a defined value. -/
lemma sql_eq_py_weekly {l : List TidyRecord} {q : String}
    (H : groupsDefined (fMetricSql l q)) :
    sql_weekly_series l q = (py_weekly_series l (lowerStr q)).map (fun p => (p.1, some p.2)) := by
  have hf : fMetricPy l (lowerStr q) = fMetricSql l q := rfl
  unfold sql_weekly_series py_weekly_series
  rw [hf, List.map_map]
  refine List.map_congr_left (fun k hk => ?_)
  have hne := definedVals_wkGroup_ne H (mem_of_mem_wkKeys hk)
  simp [sqlSUM, pySum, hne]

/-- The spec's in-process average and the SQL average agree (up to the
`some` wrapper) when every group has a defined value. -/
lemma sql_eq_spec_avg {l : List TidyRecord} {q : String}
    (H : groupsDefined (fMetricSql l q)) :
    sql_avg_by_year l q = (spec_avg_by_year l q).map (fun p => (p.1, some p.2)) := by
  unfold sql_avg_by_year spec_avg_by_year
  have hne : ∀ y ∈ yearKeys (fMetricSql l q),
      (definedVals (yearGroup (fMetricSql l q) y)).isEmpty = false :=
    fun y hy => definedVals_yearGroup_ne H (mem_of_mem_yearKeys hy)
  rw [filterMap_eq_map_of_forall (yearKeys (fMetricSql l q)) _
    (fun y => (y, (definedVals (yearGroup (fMetricSql l q) y)).sum /
      ((definedVals (yearGroup (fMetricSql l q) y)).length : ℚ)))
    (fun y hy => by simp [hne y hy])]
  rw [List.map_map]
  refine List.map_congr_left (fun y hy => ?_)
  simp [sqlAVG, hne y hy]

/-- When the admissible query results are unique, the query result is the
spec's earliest-stored extremum. -/
lemma spec_extremum_of_unique {l : List TidyRecord} {q : String} {r : TidyRecord}
    (H : groupsDefined (fMetricSql l q))
    (Hu : ∀ r1 ∈ fMetricSql l q, ∀ r2 ∈ fMetricSql l q,
      sql_most_profitable_ok l q r1 → sql_most_profitable_ok l q r2 → r1 = r2)
    (Hr : sql_most_profitable_ok l q r) :
    spec_extremum_max l q = some r := by
  obtain ⟨hrm, hall⟩ := Hr
  obtain ⟨x, hx, hxy, hxw, hxv⟩ := H r hrm
  obtain ⟨v, hv⟩ := Option.isSome_iff_exists.mp hxv
  have hle := hall x hx
  rw [hv] at hle
  have hrs : r.value.isSome = true := by
    cases hrv : r.value with
    | none => rw [hrv] at hle; simp [optLe] at hle
    | some w => rfl
  have hpred : (r.value.isSome &&
      (fMetricSql l q).all (fun x => optLe x.value r.value)) = true := by
    rw [Bool.and_eq_true, List.all_eq_true]
    exact ⟨hrs, hall⟩
  have hex : ∃ a ∈ fMetricSql l q,
      (a.value.isSome && (fMetricSql l q).all (fun x => optLe x.value a.value)) = true :=
    ⟨r, hrm, hpred⟩
  obtain ⟨r0, hr0⟩ := Option.isSome_iff_exists.mp (List.find?_isSome.mpr hex)
  have hp0 := List.find?_some hr0
  rw [Bool.and_eq_true, List.all_eq_true] at hp0
  have hm0 := List.mem_of_find?_eq_some hr0
  have hok0 : sql_most_profitable_ok l q r0 := ⟨hm0, hp0.2⟩
  have heq := Hu r0 hm0 r hrm hok0 ⟨hrm, hall⟩
  unfold spec_extremum_max
  rw [hr0, heq]

/-- Whenever any matching record has a defined value, an admissible query
result carries the greatest defined value. -/
lemma sql_extremum_is_max {l : List TidyRecord} {q : String} {r : TidyRecord}
    (Hd : (fMetricSql l q).any (fun x => x.value.isSome) = true)
    (Hr : sql_most_profitable_ok l q r) :
    ∃ v, r.value = some v ∧ r ∈ fMetricSql l q ∧
      ∀ x ∈ fMetricSql l q, ∀ w, x.value = some w → w ≤ v := by
  obtain ⟨hrm, hall⟩ := Hr
  obtain ⟨x, hx, hxv⟩ := List.any_eq_true.mp Hd
  obtain ⟨v0, hv0⟩ := Option.isSome_iff_exists.mp hxv
  have hle := hall x hx
  rw [hv0] at hle
  cases hrv : r.value with
  | none => rw [hrv] at hle; simp [optLe] at hle
  | some v =>
    refine ⟨v, rfl, hrm, ?_⟩
    intro z hz w hw
    have hz2 := hall z hz
    rw [hw, hrv] at hz2
    simpa [optLe] using hz2

/-- Every melted record's (week, year) comes from a successful header parse
and its value is the Value Normalizer's output on a cell of the table. -/
lemma tidy_mem_structure {t : RawTable} {r : TidyRecord} (h : r ∈ tidy_weekly_summary t) :
    (∃ lbl ∈ t.headers, parse_week_year lbl = some (r.week, r.year))
    ∧ ∃ row ∈ t.rows, ∃ j, r.metric = row.metric.getD "" ∧
        r.value = parse_value (cellText (row.cells.getD j none)) := by
  unfold tidy_weekly_summary at h
  rw [List.mem_flatMap] at h
  obtain ⟨j, hj, hr⟩ := h
  rw [List.mem_range] at hj
  dsimp only at hr
  split at hr
  · exact absurd hr (by simp)
  · split at hr
    · exact absurd hr (by simp)
    · next w y hparse =>
      rw [List.mem_map] at hr
      obtain ⟨row, hrow, hmk⟩ := hr
      rw [List.mem_filter] at hrow
      constructor
      · refine ⟨t.headers.getD j "", ?_, ?_⟩
        · have hg : t.headers.getD j "" = t.headers[j] := by
            rw [List.getD_eq_getElem?_getD, List.getElem?_eq_getElem hj, Option.getD_some]
          rw [hg]
          exact List.getElem_mem hj
        · rw [← hmk]
          exact hparse
      · exact ⟨row, hrow.1, j, by rw [← hmk], by rw [← hmk]⟩

/-- Membership characterization of the scope filter. -/
lemma scope_filter_mem (l : List TidyRecord) (r : TidyRecord) :
    r ∈ scope_filter l ↔
      r ∈ l ∧ (r.year = 2024 ∨ (r.year = 2025 ∧ r.week ≤ CUTOFF_2025_WEEK)) := by
  rw [scope_filter, List.mem_filter]
  unfold scope_keep
  simp

/-- A label matching no channel tag is left unchanged by the decomposer. -/
lemma stripChannel_of_no_tag {s : String} (h : extract_channel s = none) :
    stripChannel s = s := by
  unfold extract_channel at h
  unfold stripChannel
  rw [h]

/-! ## Claim theorems -/

/-- C1 (counterexample): the pipeline output for the end-to-end example
contains no record with metric_name `Total Net Income` and no record with an
undefined channel — the Metric Decomposer strips the `Total` tag from
`Total Net Income`, so the records claimed for that row do not occur. -/
theorem c1_end_to_end_counterexample :
    ((pipeline exTable).all fun r => decide (r.metric_name ≠ "Total Net Income")) = true
    ∧ ((pipeline exTable).all fun r => r.channel.isSome) = true := by
  with_unfolding_all decide

/-- C1 (amended): the example rows under headers `Week 1, 2024` and
`Week 2, 2024` yield exactly the records (2024,1,CB,Revenue,100.0),
(2024,1,Total,"Net Income",50.0), (2024,2,CB,Revenue,200.0),
(2024,2,Total,"Net Income",-10.0), and sum-by-year("Revenue") on that
record set is {2024: 300.0}. -/
theorem c1_end_to_end_amended :
    pipeline exTable =
      [ ⟨2024, 1, some "CB", "Revenue", some 100, "CB Revenue"⟩
      , ⟨2024, 1, some "Total", "Net Income", some 50, "Total Net Income"⟩
      , ⟨2024, 2, some "CB", "Revenue", some 200, "CB Revenue"⟩
      , ⟨2024, 2, some "Total", "Net Income", some (-10), "Total Net Income"⟩ ]
    ∧ py_sum_by_year (pipeline exTable) "revenue" = [(2024, 300)] := by
  with_unfolding_all decide

/-- C2 (counterexample): the decomposer matches channel tags as raw string
prefixes, not as whole tokens: `CBX Revenue` matches `CB` and is rewritten
to `X Revenue`, contradicting the claimed (undefined, `CBX Revenue`). -/
theorem c2_decomposer_counterexample :
    extract_channel "CBX Revenue" = some "CB"
    ∧ stripChannel "CBX Revenue" = "X Revenue"
    ∧ extract_channel "CBX Revenue" ≠ none := by
  with_unfolding_all decide

/-- C2 (amended): the decomposer matches a channel tag as a raw string
prefix of the label: `CB Revenue` gives (CB, `Revenue`), `Revenue` gives
(undefined, `Revenue`), `CBX Revenue` gives (CB, `X Revenue`), and a label
matching no tag is always returned unchanged with an undefined channel. -/
theorem c2_decomposer_amended :
    extract_channel "CB Revenue" = some "CB" ∧ stripChannel "CB Revenue" = "Revenue"
    ∧ extract_channel "Revenue" = none ∧ stripChannel "Revenue" = "Revenue"
    ∧ extract_channel "CBX Revenue" = some "CB" ∧ stripChannel "CBX Revenue" = "X Revenue"
    ∧ ∀ s : String, extract_channel s = none → stripChannel s = s :=
  ⟨by with_unfolding_all decide, by with_unfolding_all decide,
    by with_unfolding_all decide, by with_unfolding_all decide,
    by with_unfolding_all decide, by with_unfolding_all decide,
    fun s h => stripChannel_of_no_tag h⟩

/-- C2 (witness): the general no-tag clause applied to `Net Income`. -/
theorem c2_decomposer_amended_witness :
    extract_channel "Net Income" = none ∧ stripChannel "Net Income" = "Net Income" :=
  ⟨by with_unfolding_all decide,
    c2_decomposer_amended.2.2.2.2.2.2 "Net Income" (by with_unfolding_all decide)⟩

/-- C3: the Value Normalizer maps `$2,345` to 2345, `(1,234)` to -1234, and
the empty string, `N/A` and a bare `-` to undefined; it is a total function
into an optional numeric value, so a failed parse is `none`, never an
exception. -/
theorem c3_value_normalizer :
    parse_value "$2,345" = some 2345 ∧ parse_value "(1,234)" = some (-1234)
    ∧ parse_value "" = none ∧ parse_value "N/A" = none ∧ parse_value "-" = none := by
  with_unfolding_all decide

/-- C4: the Label Parser is a total function (never raises), parses
`Week 5, 2024` and `week 05 , 2024` to (week 5, year 2024), and returns
undefined on `Q1 2024`. -/
theorem c4_label_parse :
    parse_week_year "Week 5, 2024" = some (5, 2024)
    ∧ parse_week_year "week 05 , 2024" = some (5, 2024)
    ∧ parse_week_year "Q1 2024" = none := by
  with_unfolding_all decide

/-- C5: a record is retained by the scope filter iff its year is 2024, or
its year is 2025 and its week is at most the cutoff 31; in particular
(2025,32) is excluded while (2025,31) and (2024,52) are included. -/
theorem c5_scope_filter :
    (∀ (l : List TidyRecord) (r : TidyRecord),
      r ∈ scope_filter l ↔
        r ∈ l ∧ (r.year = 2024 ∨ (r.year = 2025 ∧ r.week ≤ CUTOFF_2025_WEEK)))
    ∧ scope_keep 2025 32 = false ∧ scope_keep 2025 31 = true ∧ scope_keep 2024 52 = true :=
  ⟨scope_filter_mem, by decide, by decide, by decide⟩

/-- C5 (witness): the membership characterization at a concrete record. -/
theorem c5_scope_filter_witness :
    exRec2025 ∈ scope_filter [exRec2025] ↔
      exRec2025 ∈ [exRec2025] ∧
        (exRec2025.year = 2024 ∨ (exRec2025.year = 2025 ∧ exRec2025.week ≤ CUTOFF_2025_WEEK)) :=
  c5_scope_filter.1 [exRec2025] exRec2025

/-- C6: every record emitted by the melter carries a (week, year) obtained
from a successful header parse (triples with unparsable headers are dropped
first), and its value field is exactly the Value Normalizer's output on a
cell of the table — undefined on unparsable text, never a substituted
zero. -/
theorem c6_melter_invariant (t : RawTable) (r : TidyRecord)
    (h : r ∈ tidy_weekly_summary t) :
    (∃ lbl ∈ t.headers, parse_week_year lbl = some (r.week, r.year))
    ∧ ∃ row ∈ t.rows, ∃ j, r.metric = row.metric.getD "" ∧
        r.value = parse_value (cellText (row.cells.getD j none)) :=
  tidy_mem_structure h

/-- C6 (witness): the invariant at the first record of the example table. -/
theorem c6_melter_invariant_witness :
    ((⟨2024, 1, some "CB", "Revenue", some 100, "CB Revenue"⟩ : TidyRecord)
        ∈ tidy_weekly_summary exTable)
    ∧ ((∃ lbl ∈ exTable.headers, parse_week_year lbl = some (1, 2024))
      ∧ ∃ row ∈ exTable.rows, ∃ j, "CB Revenue" = row.metric.getD "" ∧
          some (100 : ℚ) = parse_value (cellText (row.cells.getD j none))) :=
  ⟨by with_unfolding_all decide,
    c6_melter_invariant exTable ⟨2024, 1, some "CB", "Revenue", some 100, "CB Revenue"⟩
      (by with_unfolding_all decide)⟩

/-- C7 (counterexample): on a record set whose single Revenue record has an
undefined value, the in-process sum-by-year yields {2024: 0.0} while the
persisted-copy SQL SUM yields {2024: NULL}, so the two computations are not
identical on every record set. -/
theorem c7_storage_counterexample :
    py_sum_by_year bad7 "revenue" = [(2024, 0)]
    ∧ sql_sum_by_year bad7 "Revenue" = [(2024, none)]
    ∧ sql_sum_by_year bad7 "Revenue"
        ≠ (py_sum_by_year bad7 "revenue").map (fun p => (p.1, some p.2)) := by
  with_unfolding_all decide

/-- C7 (amended): on every record set in which each (year, week) group of
matching records has at least one defined value, in-process sum-by-year and
weekly-series agree with the persisted SQL queries, the spec's in-process
average-by-year agrees with the SQL average, and when the admissible
results of the extremum query are unique the query result is the spec's
earliest-stored extremum. -/
theorem c7_storage_amended (l : List TidyRecord) (q : String) (r : TidyRecord)
    (H : groupsDefined (fMetricSql l q))
    (Hu : ∀ r1 ∈ fMetricSql l q, ∀ r2 ∈ fMetricSql l q,
      sql_most_profitable_ok l q r1 → sql_most_profitable_ok l q r2 → r1 = r2)
    (Hr : sql_most_profitable_ok l q r) :
    sql_sum_by_year l q = (py_sum_by_year l (lowerStr q)).map (fun p => (p.1, some p.2))
    ∧ sql_weekly_series l q = (py_weekly_series l (lowerStr q)).map (fun p => (p.1, some p.2))
    ∧ sql_avg_by_year l q = (spec_avg_by_year l q).map (fun p => (p.1, some p.2))
    ∧ spec_extremum_max l q = some r :=
  ⟨sql_eq_py_sum H, sql_eq_py_weekly H, sql_eq_spec_avg H, spec_extremum_of_unique H Hu Hr⟩

/-- C7 (witness): the storage equivalence at the example pipeline output. -/
theorem c7_storage_amended_witness :
    sql_sum_by_year (pipeline exTable) "Revenue"
      = (py_sum_by_year (pipeline exTable) (lowerStr "Revenue")).map (fun p => (p.1, some p.2))
    ∧ sql_weekly_series (pipeline exTable) "Revenue"
      = (py_weekly_series (pipeline exTable) (lowerStr "Revenue")).map (fun p => (p.1, some p.2))
    ∧ sql_avg_by_year (pipeline exTable) "Revenue"
      = (spec_avg_by_year (pipeline exTable) "Revenue").map (fun p => (p.1, some p.2))
    ∧ spec_extremum_max (pipeline exTable) "Revenue" = some exTop :=
  c7_storage_amended (pipeline exTable) "Revenue" exTop
    (by with_unfolding_all decide) (by with_unfolding_all decide)
    (by with_unfolding_all decide)

/-- C8 (counterexample): with two records tied on the maximal Net Income
value, the `ORDER BY value DESC LIMIT 1` query admits the later record as a
result even though the earliest-stored tied record is a different one, so
the result is not always the earliest record in stored order. -/
theorem c8_extremum_counterexample :
    sql_most_profitable_ok [r8early, r8late] "Net Income" r8late
    ∧ spec_extremum_max [r8early, r8late] "Net Income" = some r8early
    ∧ r8late ≠ r8early := by
  with_unfolding_all decide

/-- C8 (amended): whenever some matching record has a defined value, any
admissible result of the extremum query is a matching record whose defined
value bounds every defined value of the matching records; among tied
records the choice is not determined. -/
theorem c8_extremum_amended (l : List TidyRecord) (q : String) (r : TidyRecord)
    (Hd : (fMetricSql l q).any (fun x => x.value.isSome) = true)
    (Hr : sql_most_profitable_ok l q r) :
    ∃ v, r.value = some v ∧ r ∈ fMetricSql l q ∧
      ∀ x ∈ fMetricSql l q, ∀ w, x.value = some w → w ≤ v :=
  sql_extremum_is_max Hd Hr

/-- C8 (witness): the amended bound at the earlier tied record. -/
theorem c8_extremum_amended_witness :
    ∃ v, r8early.value = some v ∧ r8early ∈ fMetricSql [r8early, r8late] "Net Income" ∧
      ∀ x ∈ fMetricSql [r8early, r8late] "Net Income", ∀ w, x.value = some w → w ≤ v :=
  c8_extremum_amended [r8early, r8late] "Net Income" r8early
    (by with_unfolding_all decide) (by with_unfolding_all decide)

/-- C9 (counterexample): `Week 99, 2024` parses successfully to week 99,
which is outside the claimed 1–53 range — the parser enforces only the
1–2-digit shape, not the 1–53 bound. -/
theorem c9_bounds_counterexample :
    parse_week_year "Week 99, 2024" = some (99, 2024) ∧ ¬(99 ≤ 53) := by
  with_unfolding_all decide

/-- C9 (amended): a successful parse yields a week of at most 99 (one or
two digits; the 1–53 bound is not enforced) and a year of at most 9999
(four digits). -/
theorem c9_bounds_amended (s : String) (w y : Nat)
    (h : parse_week_year s = some (w, y)) : w ≤ 99 ∧ y ≤ 9999 :=
  searchWY_bounds s.toList h

/-- C9 (witness): the bounds at `Week 5, 2024`. -/
theorem c9_bounds_amended_witness :
    parse_week_year "Week 5, 2024" = some (5, 2024) ∧ 5 ≤ 99 ∧ 2024 ≤ 9999 :=
  ⟨by with_unfolding_all decide,
    c9_bounds_amended "Week 5, 2024" 5 2024 (by with_unfolding_all decide)⟩

/-- C10: the Label Parser matches its pattern anywhere in the header, not
anchored to the whole string: `Week 5, 2024` surrounded by arbitrary
leading text without a `w` and arbitrary trailing text still parses to
(5, 2024); concretely, `Totals for Week 5, 2024 (est)` parses to (5, 2024)
and a header with two occurrences returns the first. -/
theorem c10_search_anywhere :
    (∀ pre post : List Char, (∀ c ∈ pre, c.toLower ≠ 'w') →
      parse_week_year (String.mk (pre ++ String.toList "Week 5, 2024" ++ post)) = some (5, 2024))
    ∧ parse_week_year "Totals for Week 5, 2024 (est)" = some (5, 2024)
    ∧ parse_week_year "Week 7, 2023 and Week 5, 2024" = some (7, 2023) :=
  ⟨fun pre post h => searchWY_through pre post h,
    by with_unfolding_all decide, by with_unfolding_all decide⟩

/-- C10 (witness): the embedded pattern surrounded by spaces. -/
theorem c10_search_anywhere_witness :
    parse_week_year (String.mk ([' '] ++ String.toList "Week 5, 2024" ++ [' '])) = some (5, 2024) :=
  c10_search_anywhere.1 [' '] [' '] (by decide)
